import Mathlib

/-!
Shallow embedding of the bug-tracker backend (Express + Prisma) and proofs
about its authorization, member-management, ticket and user routes.

Sources embedded:
- src/backend/src/middleware/auth.ts (authenticateToken select, requireRole,
  requireProjectAccess)
- the projects router (src/unnamed/part_000, first document): update/delete
  project, add/remove member, update member role
- the tickets router (src/unnamed/part_000, second document): list, create,
  update, remove label
- the users router (src/unnamed/part_001, first document): role update,
  delete, and the per-endpoint `select` projections

Modelling conventions:
- ids are Nat (Prisma cuid strings; only equality is used on them);
- timestamps are Nat (only `orderBy updatedAt desc` uses them);
- enum columns (ProjectRole.role, Ticket.status/priority/type) are typed with
  the corresponding inductive: the storage layer rejects any other string, so
  these are the only values that can live in or be written to the database;
- each route handler is a function from the database and request data to a
  pair of an HTTP status code and the resulting database (reads return
  payloads instead); `try/catch` around a throwing Prisma call (update/delete
  of a missing record) is modelled as a 500 branch;
- response bodies' `message`/`error` strings are not modelled, only statuses
  and payload shapes.
-/

namespace BugTracker

/-- Project-level role enum of the ProjectRole table. -/
inductive Role
  | OWNER
  | ADMIN
  | MEMBER
  | VIEWER
deriving DecidableEq, Repr

/-- Ticket status enum. -/
inductive TicketStatus
  | OPEN
  | IN_PROGRESS
  | REVIEW
  | TESTING
  | RESOLVED
  | CLOSED
deriving DecidableEq, Repr

/-- Ticket priority enum. -/
inductive Priority
  | LOW
  | MEDIUM
  | HIGH
  | URGENT
deriving DecidableEq, Repr

/-- Ticket type enum. -/
inductive TicketType
  | BUG
  | FEATURE
  | TASK
  | STORY
deriving DecidableEq, Repr

/-- A stored User row. `password` is the credential material (bcrypt hash in
the source); `role` is the global role string (ADMIN/MANAGER/DEVELOPER/TESTER). -/
structure User where
  id : Nat
  email : String
  username : String
  password : String
  firstName : String
  lastName : String
  avatar : String
  role : String
  createdAt : Nat
  updatedAt : Nat
deriving DecidableEq, Repr

/-- A stored Project row. -/
structure Project where
  id : Nat
  name : String
  description : String
  status : String
  createdBy : Nat
deriving DecidableEq, Repr

/-- A stored ProjectRole row: the join entity (user, project) → role, with a
composite unique key userId_projectId. -/
structure ProjectRole where
  userId : Nat
  projectId : Nat
  role : Role
deriving DecidableEq, Repr

/-- A stored Ticket row. `labels` is the many-to-many label-id set of the
ticket (Prisma implicit relation), kept as a list of label ids. -/
structure Ticket where
  id : Nat
  title : String
  description : String
  status : TicketStatus
  priority : Priority
  type : TicketType
  projectId : Nat
  assignedTo : Option Nat
  createdBy : Nat
  dueDate : Option Nat
  labels : List Nat
  updatedAt : Nat
deriving DecidableEq, Repr

/-- A stored Label row. -/
structure Label where
  id : Nat
  name : String
deriving DecidableEq, Repr

/-- The database state visible to the routes under verification.
`nextTicketId` stands in for the storage layer's id generation on create. -/
structure DB where
  users : List User
  projects : List Project
  projectRoles : List ProjectRole
  tickets : List Ticket
  labels : List Label
  nextTicketId : Nat
deriving DecidableEq, Repr

/-- prisma.user.findUnique on the primary key. -/
def findUser (db : DB) (userId : Nat) : Option User :=
  db.users.find? (fun u => u.id == userId)

/-- prisma.project.findUnique on the primary key. -/
def findProject (db : DB) (projectId : Nat) : Option Project :=
  db.projects.find? (fun p => p.id == projectId)

/-- prisma.ticket.findUnique on the primary key. -/
def findTicket (db : DB) (ticketId : Nat) : Option Ticket :=
  db.tickets.find? (fun t => t.id == ticketId)

/-- prisma.projectRole.findUnique on the composite key userId_projectId. -/
def findProjectRole (db : DB) (userId projectId : Nat) : Option ProjectRole :=
  db.projectRoles.find? (fun r => r.userId == userId && r.projectId == projectId)

/-- prisma.label.findUnique on the primary key. -/
def findLabel (db : DB) (labelId : Nat) : Option Label :=
  db.labels.find? (fun l => l.id == labelId)

/-- Outcome of an Express middleware: pass control on, or answer with a status. -/
inductive MWResult
  | allow
  | deny (status : Nat)
deriving DecidableEq, Repr

/-- requireProjectAccess from src/backend/src/middleware/auth.ts lines 76-120.
In the source, the whole body — the projectId extraction, the authentication
guard, the ProjectRole lookup with its 403 "Project access denied" response,
the accessLevels map (OWNER 4, ADMIN 3, MEMBER 2, VIEWER 1) and the rank
comparison with its 403 "Insufficient project permissions" response — is
commented out; the only live statement is `return next()`. The middleware
therefore allows every request regardless of the access level it was built
with, the acting user, the project, and the database contents. -/
def requireProjectAccess (_accessLevel : Role) (_db : DB) (_userId _projectId : Nat) :
    MWResult :=
  MWResult.allow

/-- requireRole from src/backend/src/middleware/auth.ts lines 62-74. Both the
authentication guard and the `roles.includes(req.user.role)` check with its
403 response are commented out; the only live statement is `return next()`. -/
def requireRole (_roles : List String) (_userRole : String) : MWResult :=
  MWResult.allow

/-- Request body of PUT /projects/:id (name, description, status as sent). -/
structure ProjectUpdateBody where
  name : String
  description : String
  status : String
deriving DecidableEq, Repr

/-- Handler of PUT /projects/:id after its middleware chain: the
validationResult check is commented out in the source, so the body is used as
is; prisma.project.update throws on a missing record (caught, 500), otherwise
rewrites name/description/status of the addressed row and answers 200. -/
def updateProjectHandler (db : DB) (projectId : Nat) (b : ProjectUpdateBody) :
    Nat × DB :=
  match findProject db projectId with
  | none => (500, db)
  | some _ =>
    (200, { db with
      projects := db.projects.map (fun p =>
        if p.id == projectId then
          { p with name := b.name, description := b.description, status := b.status }
        else p) })

/-- PUT /projects/:id: requireProjectAccess('ADMIN') then the update handler. -/
def updateProjectRoute (db : DB) (userId projectId : Nat) (b : ProjectUpdateBody) :
    Nat × DB :=
  match requireProjectAccess Role.ADMIN db userId projectId with
  | MWResult.deny s => (s, db)
  | MWResult.allow => updateProjectHandler db projectId b

/-- DELETE /projects/:id: requireProjectAccess('OWNER'), then
prisma.project.delete (throws on a missing record, caught as 500). Cascades to
related rows are a schema concern; the project row removal is modelled. -/
def deleteProjectRoute (db : DB) (userId projectId : Nat) : Nat × DB :=
  match requireProjectAccess Role.OWNER db userId projectId with
  | MWResult.deny s => (s, db)
  | MWResult.allow =>
    match findProject db projectId with
    | none => (500, db)
    | some _ =>
      (200, { db with projects := db.projects.filter (fun p => p.id != projectId) })

/-- POST /projects/:id/members: requireProjectAccess('ADMIN'), then the
handler. The `role` body field is declared `isIn(['MEMBER','ADMIN','VIEWER'])`
but the validationResult check is commented out; the field is typed here at
the storage enum. Handler: 404 when the target user does not exist, 400
conflict when a ProjectRole for (target, project) already exists, otherwise
creates the row and answers 201. -/
def addMemberRoute (db : DB) (actorId projectId targetId : Nat) (role : Role) :
    Nat × DB :=
  match requireProjectAccess Role.ADMIN db actorId projectId with
  | MWResult.deny s => (s, db)
  | MWResult.allow =>
    match findUser db targetId with
    | none => (404, db)
    | some _ =>
      match findProjectRole db targetId projectId with
      | some _ => (400, db)
      | none =>
        (201, { db with
          projectRoles := db.projectRoles ++
            [{ userId := targetId, projectId := projectId, role := role }] })

/-- DELETE /projects/:id/members/:userId: requireProjectAccess('ADMIN'), then
the handler. It loads the project and answers 400 "Cannot remove project
owner" when `project?.createdBy === userId` (the optional chaining makes a
missing project compare false); otherwise prisma.projectRole.delete on the
composite key (throws when the row is missing, caught as 500). -/
def removeMemberRoute (db : DB) (actorId projectId targetId : Nat) : Nat × DB :=
  match requireProjectAccess Role.ADMIN db actorId projectId with
  | MWResult.deny s => (s, db)
  | MWResult.allow =>
    if (findProject db projectId).any (fun p => p.createdBy == targetId) then
      (400, db)
    else
      match findProjectRole db targetId projectId with
      | none => (500, db)
      | some _ =>
        (200, { db with
          projectRoles := db.projectRoles.filter (fun r =>
            !(r.userId == targetId && r.projectId == projectId)) })

/-- PUT /projects/:id/members/:userId: requireProjectAccess('ADMIN'), then the
handler. It answers 400 "Cannot change project owner role" when
`project?.createdBy === userId`; otherwise prisma.projectRole.update on the
composite key (throws when the row is missing, caught as 500) rewrites the
role field. The `role` body field is typed at the storage enum as above. -/
def updateMemberRoleRoute (db : DB) (actorId projectId targetId : Nat) (role : Role) :
    Nat × DB :=
  match requireProjectAccess Role.ADMIN db actorId projectId with
  | MWResult.deny s => (s, db)
  | MWResult.allow =>
    if (findProject db projectId).any (fun p => p.createdBy == targetId) then
      (400, db)
    else
      match findProjectRole db targetId projectId with
      | none => (500, db)
      | some _ =>
        (200, { db with
          projectRoles := db.projectRoles.map (fun r =>
            if r.userId == targetId && r.projectId == projectId then
              { r with role := role }
            else r) })

/-- Case-insensitive substring test, modelling Prisma
`contains: s, mode: 'insensitive'`: an empty needle matches everything,
otherwise the lowered needle must occur in the lowered haystack. -/
def lowerContains (hay needle : String) : Bool :=
  needle.isEmpty || (hay.toLower.splitOn needle.toLower).length ≥ 2

/-- Query string of GET /tickets after the handler's destructuring defaults
(`page = 1, limit = 20`). The declared validator bounds
(`page ≥ 1`, `1 ≤ limit ≤ 100`, enums) are never enforced: the
validationResult check in the handler is commented out, so whatever numbers
the caller sends are used as is. Enum-valued filters are typed at the enums
because any other string matches no stored row. -/
structure TicketQuery where
  projectId : Option Nat
  status : Option TicketStatus
  priority : Option Priority
  type : Option TicketType
  assignedTo : Option Nat
  search : Option String
  page : Nat
  limit : Nat
deriving DecidableEq, Repr

/-- projectIds of the acting user's ProjectRole rows
(prisma.projectRole.findMany where userId, select projectId). -/
def userProjectIds (db : DB) (userId : Nat) : List Nat :=
  (db.projectRoles.filter (fun r => r.userId == userId)).map (fun r => r.projectId)

/-- The `where` clause built by GET /tickets: project filter (the requested
project, or any project the user belongs to), the optional
status/priority/type/assignedTo equality filters, and the OR search over
title/description with insensitive contains. -/
def ticketMatches (db : DB) (userId : Nat) (q : TicketQuery) (t : Ticket) : Bool :=
  (match q.projectId with
   | some pid => t.projectId == pid
   | none => (userProjectIds db userId).contains t.projectId) &&
  (match q.status with
   | some s => t.status == s
   | none => true) &&
  (match q.priority with
   | some p => t.priority == p
   | none => true) &&
  (match q.type with
   | some ty => t.type == ty
   | none => true) &&
  (match q.assignedTo with
   | some a => t.assignedTo == some a
   | none => true) &&
  (match q.search with
   | some s => lowerContains t.title s || lowerContains t.description s
   | none => true)

/-- The rows matching the GET /tickets where clause, in storage order. -/
def matchingTickets (db : DB) (userId : Nat) (q : TicketQuery) : List Ticket :=
  db.tickets.filter (ticketMatches db userId q)

/-- Insertion step of the updatedAt-descending sort. -/
def insertByUpdatedAt (t : Ticket) : List Ticket → List Ticket
  | [] => [t]
  | u :: rest =>
    if t.updatedAt ≥ u.updatedAt then t :: u :: rest else u :: insertByUpdatedAt t rest

/-- orderBy updatedAt desc of the tickets query, as a stable insertion sort
on the updatedAt column (only the ordering matters to the embedding). -/
def sortByUpdatedAtDesc : List Ticket → List Ticket
  | [] => []
  | t :: rest => insertByUpdatedAt t (sortByUpdatedAtDesc rest)

/-- Response of GET /tickets: status, the page of tickets, and the pagination
envelope (page, limit, total, pages). -/
structure TicketListResult where
  status : Nat
  tickets : List Ticket
  page : Nat
  limit : Nat
  total : Nat
  pages : Nat
deriving DecidableEq, Repr

/-- Success path of GET /tickets: orderBy updatedAt desc, skip
(page-1)*limit, take limit, total by count on the same where clause, and
pages = ceil(total/limit). The ceiling is written for limit ≥ 1 exactly as
Math.ceil computes it on naturals; the source puts no floor on limit (its
declared validator is unenforced), and a limit of 0 would make Math.ceil
produce a non-numeric pages value, outside this model. -/
def listTicketsOk (db : DB) (userId : Nat) (q : TicketQuery) : TicketListResult :=
  { status := 200
    tickets := ((sortByUpdatedAtDesc (matchingTickets db userId q)).drop
      ((q.page - 1) * q.limit)).take q.limit
    page := q.page
    limit := q.limit
    total := (sortByUpdatedAtDesc (matchingTickets db userId q)).length
    pages := ((sortByUpdatedAtDesc (matchingTickets db userId q)).length + q.limit - 1)
      / q.limit }

/-- GET /tickets: when a projectId filter is present the handler first checks
the acting user's ProjectRole on it (absence: 403 with empty payload);
otherwise it lists over the user's own projects. -/
def listTicketsRoute (db : DB) (userId : Nat) (q : TicketQuery) : TicketListResult :=
  match q.projectId with
  | some pid =>
    match findProjectRole db userId pid with
    | none =>
      { status := 403, tickets := [], page := q.page, limit := q.limit
        total := 0, pages := 0 }
    | some _ => listTicketsOk db userId q
  | none => listTicketsOk db userId q

/-- Request body of POST /tickets, with fields taken after the validator
chain's sanitizers (trim) have run. The enum fields are typed at the storage
enums; title and description are arbitrary strings — the declared length
bounds are never enforced (commented-out validationResult check). -/
structure TicketCreateBody where
  title : String
  description : String
  priority : Priority
  type : TicketType
  projectId : Nat
  assignedTo : Option Nat
  dueDate : Option Nat
deriving DecidableEq, Repr

/-- Shape bounds declared by the validateTicket chain (tickets router):
title of trimmed length 1..200 and description of length 1..2000 (the enum
and id fields of the body are typed, so their isIn/notEmpty clauses hold by
construction here). The chain is attached to POST /tickets but its outcome is
never read by the handler. -/
def validateTicketBody (b : TicketCreateBody) : Bool :=
  1 ≤ b.title.length && b.title.length ≤ 200 &&
  1 ≤ b.description.length && b.description.length ≤ 2000

/-- POST /tickets: no validation enforcement (the validationResult check is
commented out), then the ProjectRole check on the body's projectId (absence:
403), then prisma.ticket.create with status defaulting to OPEN at the schema
and a fresh id; timestamps are not modelled (0). -/
def createTicketRoute (db : DB) (userId : Nat) (b : TicketCreateBody) : Nat × DB :=
  match findProjectRole db userId b.projectId with
  | none => (403, db)
  | some _ =>
    let t : Ticket :=
      { id := db.nextTicketId
        title := b.title
        description := b.description
        status := TicketStatus.OPEN
        priority := b.priority
        type := b.type
        projectId := b.projectId
        assignedTo := b.assignedTo
        createdBy := userId
        dueDate := b.dueDate
        labels := []
        updatedAt := 0 }
    (201, { db with tickets := db.tickets ++ [t], nextTicketId := db.nextTicketId + 1 })

/-- Request body of PUT /tickets/:id: every field optional; an absent field
leaves the stored column unchanged (Prisma ignores absent keys). The status
field is typed at the storage enum: each enum literal is a non-empty string,
so a present status is exactly what the handler's `updateData.status`
truthiness test sees as true. -/
structure TicketUpdateBody where
  title : Option String
  description : Option String
  status : Option TicketStatus
  priority : Option Priority
  type : Option TicketType
  assignedTo : Option Nat
  dueDate : Option Nat
deriving DecidableEq, Repr

/-- Application of a PUT /tickets/:id body to a stored ticket row
(prisma.ticket.update data: updateData): present fields overwrite, absent
fields persist. -/
def applyTicketUpdate (b : TicketUpdateBody) (t : Ticket) : Ticket :=
  { t with
    title := b.title.getD t.title
    description := b.description.getD t.description
    status := b.status.getD t.status
    priority := b.priority.getD t.priority
    type := b.type.getD t.type
    assignedTo := match b.assignedTo with
      | some a => some a
      | none => t.assignedTo
    dueDate := match b.dueDate with
      | some d => some d
      | none => t.dueDate }

/-- PUT /tickets/:id: 404 when the ticket is missing; 403 when the acting
user has no ProjectRole on its project; 403 "Insufficient permissions to
change status" when the body carries a status, the user's role is VIEWER and
the user is not the ticket's assignee; otherwise applies the body and answers
200. -/
def updateTicketRoute (db : DB) (userId ticketId : Nat) (b : TicketUpdateBody) :
    Nat × DB :=
  match findTicket db ticketId with
  | none => (404, db)
  | some t =>
    match findProjectRole db userId t.projectId with
    | none => (403, db)
    | some pr =>
      if b.status.isSome && pr.role == Role.VIEWER && t.assignedTo != some userId then
        (403, db)
      else
        (200, { db with
          tickets := db.tickets.map (fun u =>
            if u.id == ticketId then applyTicketUpdate b u else u) })

/-- DELETE /tickets/:id/labels/:labelId: 404 when the ticket is missing; 403
when the acting user has no ProjectRole on its project; otherwise
prisma.ticket.update with labels disconnect, which detaches the label id if
attached and is a no-op otherwise, then 200. The route never looks the label
itself up. -/
def removeLabelRoute (db : DB) (userId ticketId labelId : Nat) : Nat × DB :=
  match findTicket db ticketId with
  | none => (404, db)
  | some t =>
    match findProjectRole db userId t.projectId with
    | none => (403, db)
    | some _ =>
      (200, { db with
        tickets := db.tickets.map (fun u =>
          if u.id == ticketId then
            { u with labels := u.labels.filter (fun l => l != labelId) }
          else u) })

/-- PUT /users/:id/role: the requireRole(['ADMIN']) middleware, then 400 when
the admin targets themselves, then prisma.user.update of the role column
(throws on a missing record, caught as 500). The declared
isIn(['ADMIN','MANAGER','DEVELOPER','TESTER']) body validator is unenforced;
the global role column is a plain string in the source's select shapes, kept
as String here. -/
def updateUserRoleRoute (db : DB) (actor : User) (targetId : Nat) (newRole : String) :
    Nat × DB :=
  match requireRole ["ADMIN"] actor.role with
  | MWResult.deny s => (s, db)
  | MWResult.allow =>
    if targetId == actor.id then (400, db)
    else
      match findUser db targetId with
      | none => (500, db)
      | some _ =>
        (200, { db with
          users := db.users.map (fun u =>
            if u.id == targetId then { u with role := newRole } else u) })

/-- Tickets assigned to a user (the _count select of DELETE /users/:id). -/
def countAssignedTickets (db : DB) (userId : Nat) : Nat :=
  (db.tickets.filter (fun t => t.assignedTo == some userId)).length

/-- Tickets created by a user (the _count select of DELETE /users/:id). -/
def countCreatedTickets (db : DB) (userId : Nat) : Nat :=
  (db.tickets.filter (fun t => t.createdBy == userId)).length

/-- ProjectRole rows of a user (the _count select of DELETE /users/:id). -/
def countUserProjectRoles (db : DB) (userId : Nat) : Nat :=
  (db.projectRoles.filter (fun r => r.userId == userId)).length

/-- DELETE /users/:id: the requireRole(['ADMIN']) middleware, then 400 when
the admin targets themselves, 404 when the target does not exist, 400 when
the target has any assigned ticket, created ticket or project membership,
otherwise deletes the user row and answers 200. -/
def deleteUserRoute (db : DB) (actor : User) (targetId : Nat) : Nat × DB :=
  match requireRole ["ADMIN"] actor.role with
  | MWResult.deny s => (s, db)
  | MWResult.allow =>
    if targetId == actor.id then (400, db)
    else
      match findUser db targetId with
      | none => (404, db)
      | some _ =>
        if countAssignedTickets db targetId > 0 ||
            countCreatedTickets db targetId > 0 ||
            countUserProjectRoles db targetId > 0 then
          (400, db)
        else
          (200, { db with users := db.users.filter (fun u => u.id != targetId) })

/-- Payload shape of the user select used by GET /users, GET /users/:id,
PUT /users/:id and PUT /users/:id/role: id, email, username, firstName,
lastName, role, avatar, createdAt, updatedAt — and no password column. -/
structure SafeUser where
  id : Nat
  email : String
  username : String
  firstName : String
  lastName : String
  role : String
  avatar : String
  createdAt : Nat
  updatedAt : Nat
deriving DecidableEq, Repr

/-- Payload shape of the member/author select (project members include,
ticket assignee in lists, comment author): id, username, firstName,
lastName, avatar. -/
structure PublicUser where
  id : Nat
  username : String
  firstName : String
  lastName : String
  avatar : String
deriving DecidableEq, Repr

/-- Payload shape of the ticket creator select: id, username, firstName,
lastName. -/
structure BriefUser where
  id : Nat
  username : String
  firstName : String
  lastName : String
deriving DecidableEq, Repr

/-- Payload shape of the GET /projects/:id member select and the
project-member search: the public fields plus the global role. -/
structure PublicRoleUser where
  id : Nat
  username : String
  firstName : String
  lastName : String
  avatar : String
  role : String
deriving DecidableEq, Repr

/-- Payload shape of the authenticateToken user lookup attached to the
request: id, email, username, role. -/
structure AuthUser where
  id : Nat
  email : String
  username : String
  role : String
deriving DecidableEq, Repr

/-- The full user select projection (users router). -/
def selectUserFull (u : User) : SafeUser :=
  { id := u.id, email := u.email, username := u.username
    firstName := u.firstName, lastName := u.lastName, role := u.role
    avatar := u.avatar, createdAt := u.createdAt, updatedAt := u.updatedAt }

/-- The member/author select projection. -/
def selectUserPublic (u : User) : PublicUser :=
  { id := u.id, username := u.username, firstName := u.firstName
    lastName := u.lastName, avatar := u.avatar }

/-- The ticket creator select projection. -/
def selectUserBrief (u : User) : BriefUser :=
  { id := u.id, username := u.username, firstName := u.firstName
    lastName := u.lastName }

/-- The member-with-role select projection (GET /projects/:id). -/
def selectUserPublicRole (u : User) : PublicRoleUser :=
  { id := u.id, username := u.username, firstName := u.firstName
    lastName := u.lastName, avatar := u.avatar, role := u.role }

/-- The authenticateToken select projection. -/
def selectAuthUser (u : User) : AuthUser :=
  { id := u.id, email := u.email, username := u.username, role := u.role }

/-- Payload of GET /users/:id (after its permission guard): findUnique with
the safe select. -/
def getUserPayload (db : DB) (userId : Nat) : Option SafeUser :=
  (findUser db userId).map selectUserFull

/-- Perturbation used to state the credential-noninterference property:
overwrite the password column of the user with the given id, all other
columns and rows unchanged. -/
def setPassword (db : DB) (userId : Nat) (pw : String) : DB :=
  { db with
    users := db.users.map (fun u =>
      if u.id == userId then { u with password := pw } else u) }

/-- Number of ProjectRole rows stored for a (user, project) pair. -/
def countRoles (db : DB) (u p : Nat) : Nat :=
  (db.projectRoles.filter (fun r => r.userId == u && r.projectId == p)).length

/-- Fixture user row. -/
def mkUser (i : Nat) : User :=
  { id := i, email := "u@example.com", username := "user", password := "hash"
    firstName := "F", lastName := "L", avatar := "", role := "DEVELOPER"
    createdAt := 0, updatedAt := 0 }

/-- Fixture ticket row in a given project, unassigned and unlabelled. -/
def mkTicket (i pid : Nat) : Ticket :=
  { id := i, title := "t", description := "d", status := TicketStatus.OPEN
    priority := Priority.LOW, type := TicketType.BUG, projectId := pid
    assignedTo := none, createdBy := 1, dueDate := none, labels := []
    updatedAt := i }

/-- Fixture project with id 1, created by user 1. -/
def projectOne : Project :=
  { id := 1, name := "p", description := "", status := "ACTIVE", createdBy := 1 }

/-- Fixture database: users 1 and 2, project 1 created by user 1 who holds
OWNER; user 2 has no ProjectRole row at all. -/
def dbC1 : DB :=
  { users := [mkUser 1, mkUser 2]
    projects := [projectOne]
    projectRoles := [{ userId := 1, projectId := 1, role := Role.OWNER }]
    tickets := [], labels := [], nextTicketId := 1 }

/-- Fixture body for PUT /projects/:id. -/
def bodyC1 : ProjectUpdateBody :=
  { name := "hijacked", description := "changed", status := "ARCHIVED" }

/-- Fixture database for the member-management witness: like dbC1 but user 2
also holds MEMBER on project 1. -/
def dbMembers : DB :=
  { dbC1 with
    projectRoles := [{ userId := 1, projectId := 1, role := Role.OWNER },
                     { userId := 2, projectId := 1, role := Role.MEMBER }] }

/-- Fixture database for the VIEWER status-change witness: user 2 holds
VIEWER on project 1 and ticket 1 is unassigned. -/
def dbViewer : DB :=
  { users := [mkUser 1, mkUser 2]
    projects := [projectOne]
    projectRoles := [{ userId := 1, projectId := 1, role := Role.OWNER },
                     { userId := 2, projectId := 1, role := Role.VIEWER }]
    tickets := [mkTicket 1 1], labels := [], nextTicketId := 2 }

/-- Fixture body carrying a status change. -/
def statusBody : TicketUpdateBody :=
  { title := none, description := none, status := some TicketStatus.CLOSED
    priority := none, type := none, assignedTo := none, dueDate := none }

/-- Fixture body carrying only a title change. -/
def titleBody : TicketUpdateBody :=
  { title := some "renamed", description := none, status := none
    priority := none, type := none, assignedTo := none, dueDate := none }

/-- Fixture ticket body whose title is empty, violating the declared 1..200
length bound of validateTicket. -/
def badTicketBody : TicketCreateBody :=
  { title := "", description := "d", priority := Priority.LOW
    type := TicketType.BUG, projectId := 1, assignedTo := none, dueDate := none }

/-- Fixture database with fifteen tickets in project 1 and user 1 as OWNER. -/
def dbFifteen : DB :=
  { users := [mkUser 1]
    projects := [projectOne]
    projectRoles := [{ userId := 1, projectId := 1, role := Role.OWNER }]
    tickets := (List.range 15).map (fun i => mkTicket (i + 1) 1)
    labels := [], nextTicketId := 16 }

/-- Fixture query: project 1, page 1, limit 200 — a limit outside the
declared [1,100] bound. -/
def qLimit200 : TicketQuery :=
  { projectId := some 1, status := none, priority := none, type := none
    assignedTo := none, search := none, page := 1, limit := 200 }

/-- Fixture query: project 1, page 2, limit 10. -/
def qPage2 : TicketQuery :=
  { projectId := some 1, status := none, priority := none, type := none
    assignedTo := none, search := none, page := 2, limit := 10 }

/-- Fixture database for the label witness: ticket 1 in project 1 carries
label 5 only; user 1 is MEMBER of project 1. -/
def dbLabel : DB :=
  { users := [mkUser 1]
    projects := [projectOne]
    projectRoles := [{ userId := 1, projectId := 1, role := Role.MEMBER }]
    tickets := [{ mkTicket 1 1 with labels := [5] }]
    labels := [{ id := 5, name := "bug" }, { id := 9, name := "ui" }]
    nextTicketId := 2 }

theorem find_map_pres {α : Type} (f : α → α) (q : α → Bool) (l : List α)
    (h : ∀ a, q (f a) = q a) : (l.map f).find? q = (l.find? q).map f := by
  induction l with
  | nil => rfl
  | cons a l ih =>
    cases hq : q a with
    | true => simp [List.find?_cons, hq, h a]
    | false => simp [List.find?_cons, hq, h a, ih]

theorem find_map_fix {α : Type} (f : α → α) (q : α → Bool) (l : List α)
    (h : ∀ a, q (f a) = q a) (hfix : ∀ a, q a = true → f a = a) :
    (l.map f).find? q = l.find? q := by
  rw [find_map_pres f q l h]
  cases hfind : l.find? q with
  | none => rfl
  | some a => simp [hfix a (List.find?_some hfind)]

theorem length_insertByUpdatedAt (t : Ticket) (l : List Ticket) :
    (insertByUpdatedAt t l).length = l.length + 1 := by
  induction l with
  | nil => rfl
  | cons u rest ih =>
    unfold insertByUpdatedAt
    by_cases hc : t.updatedAt ≥ u.updatedAt <;> simp [hc, ih]

theorem length_sortByUpdatedAtDesc (l : List Ticket) :
    (sortByUpdatedAtDesc l).length = l.length := by
  induction l with
  | nil => rfl
  | cons t rest ih =>
    unfold sortByUpdatedAtDesc
    rw [length_insertByUpdatedAt, ih, List.length_cons]

theorem find_filter_keep {α : Type} (pkeep q : α → Bool) (l : List α)
    (h : ∀ a, q a = true → pkeep a = true) :
    (l.filter pkeep).find? q = l.find? q := by
  induction l with
  | nil => rfl
  | cons a l ih =>
    cases hk : pkeep a with
    | true =>
      cases hq : q a with
      | true => simp [List.filter_cons, hk, List.find?_cons, hq]
      | false => simp [List.filter_cons, hk, List.find?_cons, hq, ih]
    | false =>
      have hq : q a = false := by
        cases hq : q a with
        | false => rfl
        | true => rw [h a hq] at hk; exact hk
      simp [List.filter_cons, hk, List.find?_cons, hq, ih]

/-- C2: the claim states that requireProjectAccess(requiredLevel) denies with
403 when no ProjectRole exists for (userId, projectId) and otherwise compares
the role's rank under OWNER=4, ADMIN=3, MEMBER=2, VIEWER=1 against the
required rank. The code refutes this: the whole body of the middleware is
commented out, so it allows every request — for every access level, database,
user and project it evaluates to allow, never consulting the ProjectRole
table. -/
theorem C2_requireProjectAccess_always_allows
    (lvl : Role) (db : DB) (userId projectId : Nat) :
    requireProjectAccess lvl db userId projectId = MWResult.allow := rfl

/-- C1: the claim states that every project-scoped operation by a user with
no ProjectRole row on the project answers 403 and does not mutate state. The
code refutes it: in dbC1 user 2 has no ProjectRole row for project 1, yet
PUT /projects/:id (guarded only by the gutted requireProjectAccess
middleware) succeeds with 200 and rewrites the stored project's name. -/
theorem C1_non_member_update_succeeds :
    findProjectRole dbC1 2 1 = none ∧
    (updateProjectRoute dbC1 2 1 bodyC1).1 = 200 ∧
    (findProject (updateProjectRoute dbC1 2 1 bodyC1).2 1).map Project.name
      = some "hijacked" :=
  ⟨rfl, rfl, rfl⟩

/-- C5: the claim states that a body violating the declared shape bounds
(here a ticket title of length 0, below the declared minimum of 1) is
rejected with 400 before the persistence operation. The code refutes it: the
validationResult check is commented out, so POST /tickets accepts the
invalid body with 201 and appends a new ticket row. -/
theorem C5_invalid_body_persisted :
    validateTicketBody badTicketBody = false ∧
    (createTicketRoute dbLabel 1 badTicketBody).1 = 201 ∧
    (createTicketRoute dbLabel 1 badTicketBody).2.tickets.length
      = dbLabel.tickets.length + 1 :=
  ⟨rfl, rfl, rfl⟩

/-- C10: for every roles list and every user role, requireRole invokes the
downstream handler (allows) — it never answers 401 or 403 — and consequently
the admin-only user endpoints PUT /users/:id/role and DELETE /users/:id never
answer 401 or 403 for any authenticated actor, whatever the actor's global
role. -/
theorem C10_requireRole_never_denies (roles : List String) (r : String)
    (db : DB) (actor : User) (targetId : Nat) (newRole : String) :
    requireRole roles r = MWResult.allow ∧
    (updateUserRoleRoute db actor targetId newRole).1 ≠ 401 ∧
    (updateUserRoleRoute db actor targetId newRole).1 ≠ 403 ∧
    (deleteUserRoute db actor targetId).1 ≠ 401 ∧
    (deleteUserRoute db actor targetId).1 ≠ 403 := by
  refine ⟨rfl, ?_, ?_, ?_, ?_⟩ <;>
    · simp only [updateUserRoleRoute, deleteUserRoute, requireRole]
      repeat' split
      all_goals simp

/-- C9: no successful user payload contains credential material: each select
projection used by the endpoints (the full user select of the users router,
the member/author select, the ticket-creator select, the member-with-role
select of GET /projects/:id, and the authenticateToken select) is invariant
under any change of the stored password, and so is the GET /users/:id
payload when any stored user's password column is overwritten. -/
theorem C9_password_noninterference (u : User) (pw : String) (db : DB)
    (i uid : Nat) :
    selectUserFull { u with password := pw } = selectUserFull u ∧
    selectUserPublic { u with password := pw } = selectUserPublic u ∧
    selectUserBrief { u with password := pw } = selectUserBrief u ∧
    selectUserPublicRole { u with password := pw } = selectUserPublicRole u ∧
    selectAuthUser { u with password := pw } = selectAuthUser u ∧
    getUserPayload (setPassword db i pw) uid = getUserPayload db uid := by
  refine ⟨rfl, rfl, rfl, rfl, rfl, ?_⟩
  unfold getUserPayload findUser setPassword
  rw [find_map_pres]
  · cases h : db.users.find? (fun v => v.id == uid) with
    | none => rfl
    | some a =>
      by_cases ha : a.id = i <;> simp [ha, selectUserFull]
  · intro a
    by_cases ha : a.id = i <;> simp [ha]

/-- C3: for every project present in the database, the member-management
endpoints DELETE /projects/:id/members/:userId and
PUT /projects/:id/members/:userId never delete the creator's ProjectRole row
on that project nor change its role field: when the target userId equals
the project's createdBy both endpoints answer 400 with the database
unchanged, and for every target the creator's ProjectRole row after either
endpoint is exactly what it was before. -/
theorem C3_creator_role_protected (db : DB) (actorId projectId targetId : Nat)
    (b : Role) (p : Project) (hp : findProject db projectId = some p) :
    (targetId = p.createdBy →
      removeMemberRoute db actorId projectId targetId = (400, db) ∧
      updateMemberRoleRoute db actorId projectId targetId b = (400, db)) ∧
    findProjectRole (removeMemberRoute db actorId projectId targetId).2
        p.createdBy projectId = findProjectRole db p.createdBy projectId ∧
    findProjectRole (updateMemberRoleRoute db actorId projectId targetId b).2
        p.createdBy projectId = findProjectRole db p.createdBy projectId := by
  by_cases ht : targetId = p.createdBy
  · have hg : (findProject db projectId).any (fun q => q.createdBy == targetId)
        = true := by
      simp [hp, ht]
    have hr : removeMemberRoute db actorId projectId targetId = (400, db) := by
      simp [removeMemberRoute, requireProjectAccess, hg]
    have hu : updateMemberRoleRoute db actorId projectId targetId b = (400, db) := by
      simp [updateMemberRoleRoute, requireProjectAccess, hg]
    exact ⟨fun _ => ⟨hr, hu⟩, by rw [hr], by rw [hu]⟩
  · have hne : (p.createdBy == targetId) = false := by
      simp only [beq_eq_false_iff_ne, ne_eq]
      exact fun h => ht h.symm
    have hg : (findProject db projectId).any (fun q => q.createdBy == targetId)
        = false := by
      simp [hp, hne]
    refine ⟨fun h => absurd h ht, ?_, ?_⟩
    · cases hfr : findProjectRole db targetId projectId with
      | none => simp [removeMemberRoute, requireProjectAccess, hg, hfr]
      | some r =>
        simp only [removeMemberRoute, requireProjectAccess, hg, hfr,
          Bool.false_eq_true, if_false]
        unfold findProjectRole
        apply find_filter_keep
        intro a haq
        have h1 : a.userId = p.createdBy := by
          have := (Bool.and_eq_true _ _).mp haq
          exact beq_iff_eq.mp this.1
        simp [h1, hne]
    · cases hfr : findProjectRole db targetId projectId with
      | none => simp [updateMemberRoleRoute, requireProjectAccess, hg, hfr]
      | some r =>
        simp only [updateMemberRoleRoute, requireProjectAccess, hg, hfr,
          Bool.false_eq_true, if_false]
        unfold findProjectRole
        apply find_map_fix
        · intro a
          by_cases hc : a.userId == targetId && a.projectId == projectId
          · simp only [hc, if_true]
          · simp only [Bool.not_eq_true] at hc
            simp [hc]
        · intro a haq
          have h1 : a.userId = p.createdBy := by
            have := (Bool.and_eq_true _ _).mp haq
            exact beq_iff_eq.mp this.1
          simp [h1, hne]

/-- Witness for C3 on dbMembers: project 1 is present, its creator is user 1,
and targeting user 1 with both member-management endpoints answers 400 and
leaves the database unchanged. -/
theorem C3_creator_role_protected_witness :
    findProject dbMembers 1 = some projectOne ∧
    (removeMemberRoute dbMembers 9 1 1 = (400, dbMembers) ∧
     updateMemberRoleRoute dbMembers 9 1 1 Role.ADMIN = (400, dbMembers)) :=
  ⟨rfl,
   (C3_creator_role_protected dbMembers 9 1 1 Role.ADMIN projectOne rfl).1 rfl⟩

/-- C4: for a ticket update request by a user whose ProjectRole on the
ticket's project is VIEWER and who is not the ticket's assignee, a body
carrying a status field is rejected with 403 leaving the database unchanged,
while a body with no status field passes this gate: the request answers 200
and the stored ticket becomes exactly the body applied to the old row. -/
theorem C4_viewer_status_gate (db : DB) (userId ticketId : Nat)
    (b : TicketUpdateBody) (t : Ticket) (pr : ProjectRole)
    (ht : findTicket db ticketId = some t)
    (hpr : findProjectRole db userId t.projectId = some pr)
    (hrole : pr.role = Role.VIEWER)
    (hassign : t.assignedTo ≠ some userId) :
    (b.status.isSome = true → updateTicketRoute db userId ticketId b = (403, db)) ∧
    (b.status = none →
      (updateTicketRoute db userId ticketId b).1 = 200 ∧
      findTicket (updateTicketRoute db userId ticketId b).2 ticketId
        = some (applyTicketUpdate b t)) := by
  have ht0 : db.tickets.find? (fun u => u.id == ticketId) = some t := ht
  have htid : (t.id == ticketId) = true := by
    simpa using List.find?_some ht0
  constructor
  · intro hs
    simp [updateTicketRoute, ht, hpr, hs, hrole, hassign]
  · intro hs
    have hs' : b.status.isSome = false := by rw [hs]; rfl
    have hmain : updateTicketRoute db userId ticketId b =
        (200, { db with
          tickets := db.tickets.map (fun u =>
            if u.id == ticketId then applyTicketUpdate b u else u) }) := by
      simp [updateTicketRoute, ht, hpr, hs']
    rw [hmain]
    refine ⟨rfl, ?_⟩
    have ht' : db.tickets.find? (fun u => u.id == ticketId) = some t := ht
    show (db.tickets.map (fun u =>
        if u.id == ticketId then applyTicketUpdate b u else u)).find?
        (fun u => u.id == ticketId) = some (applyTicketUpdate b t)
    rw [find_map_pres, ht']
    · exact congrArg some (if_pos htid)
    · intro a
      by_cases hc : a.id = ticketId <;> simp [hc, applyTicketUpdate]

/-- Witness for C4 on dbViewer: user 2 holds VIEWER on project 1 and is not
the assignee of ticket 1; a status-bearing body answers 403 without change,
and a title-only body answers 200 with the title applied. -/
theorem C4_viewer_status_gate_witness :
    updateTicketRoute dbViewer 2 1 statusBody = (403, dbViewer) ∧
    ((updateTicketRoute dbViewer 2 1 titleBody).1 = 200 ∧
      findTicket (updateTicketRoute dbViewer 2 1 titleBody).2 1
        = some (applyTicketUpdate titleBody (mkTicket 1 1))) :=
  ⟨(C4_viewer_status_gate dbViewer 2 1 statusBody (mkTicket 1 1)
      { userId := 2, projectId := 1, role := Role.VIEWER }
      rfl rfl rfl (by decide)).1 rfl,
   (C4_viewer_status_gate dbViewer 2 1 titleBody (mkTicket 1 1)
      { userId := 2, projectId := 1, role := Role.VIEWER }
      rfl rfl rfl (by decide)).2 rfl⟩

theorem map_fix_idem {α : Type} (f : α → α) (l : List α)
    (h : ∀ a, f (f a) = f a) : (l.map f).map f = l.map f := by
  rw [List.map_map]
  exact List.map_congr_left (fun a _ => h a)

theorem removeLabelRoute_ok (db : DB) (userId ticketId labelId : Nat)
    (t : Ticket) (pr : ProjectRole)
    (ht : findTicket db ticketId = some t)
    (hpr : findProjectRole db userId t.projectId = some pr) :
    removeLabelRoute db userId ticketId labelId =
      (200, { db with tickets := db.tickets.map (fun u =>
        if u.id == ticketId then
          { u with labels := u.labels.filter (fun l => l != labelId) }
        else u) }) := by
  simp [removeLabelRoute, ht, hpr]

/-- C7: for a ticket present in the database, an acting user holding some
ProjectRole on its project and a label id not attached to the ticket,
DELETE /tickets/:id/labels/:labelId answers 200 and the stored ticket row is
unchanged; moreover removing the same label twice yields exactly the state of
removing it once. -/
theorem C7_remove_label_idempotent (db : DB) (userId ticketId labelId : Nat)
    (t : Ticket) (ht : findTicket db ticketId = some t)
    (ha : (findProjectRole db userId t.projectId).isSome = true)
    (hl : labelId ∉ t.labels) :
    (removeLabelRoute db userId ticketId labelId).1 = 200 ∧
    findTicket (removeLabelRoute db userId ticketId labelId).2 ticketId = some t ∧
    (removeLabelRoute (removeLabelRoute db userId ticketId labelId).2
        userId ticketId labelId).2
      = (removeLabelRoute db userId ticketId labelId).2 := by
  obtain ⟨pr, hpr⟩ := Option.isSome_iff_exists.mp ha
  have ht0 : db.tickets.find? (fun u => u.id == ticketId) = some t := ht
  have htid : (t.id == ticketId) = true := by
    simpa using List.find?_some ht0
  have hidp : ∀ a : Ticket,
      (((if a.id == ticketId then
          { a with labels := a.labels.filter (fun l => l != labelId) }
        else a) : Ticket).id == ticketId) = (a.id == ticketId) := by
    intro a
    by_cases hc : a.id = ticketId <;> simp [hc]
  have hmain := removeLabelRoute_ok db userId ticketId labelId t pr ht hpr
  have hft : t.labels.filter (fun l => l != labelId) = t.labels := by
    rw [List.filter_eq_self]
    intro a hmem
    exact bne_iff_ne.mpr (fun he => hl (he ▸ hmem))
  have hfound : findTicket (removeLabelRoute db userId ticketId labelId).2 ticketId
      = some t := by
    rw [hmain]
    show (db.tickets.map (fun u =>
        if u.id == ticketId then
          { u with labels := u.labels.filter (fun l => l != labelId) }
        else u)).find? (fun u => u.id == ticketId) = some t
    rw [find_map_pres _ _ _ hidp, ht0]
    simp [htid, hft]
  refine ⟨by rw [hmain], hfound, ?_⟩
  have hpr2 : findProjectRole (removeLabelRoute db userId ticketId labelId).2
      userId t.projectId = some pr := by
    rw [hmain]
    exact hpr
  have hmain2 := removeLabelRoute_ok (removeLabelRoute db userId ticketId labelId).2
    userId ticketId labelId t pr hfound hpr2
  rw [hmain2, hmain]
  exact congrArg (fun ts => (200, ({ db with tickets := ts } : DB)).2)
    (map_fix_idem (fun u : Ticket =>
        if u.id == ticketId then
          { u with labels := u.labels.filter (fun l => l != labelId) }
        else u)
      db.tickets
      (fun u => by by_cases hc : u.id = ticketId <;> simp [hc, List.filter_filter]))

/-- Witness for C7 on dbLabel: ticket 1 carries only label 5; removing label
9 (never attached) answers 200, leaves the ticket row unchanged, and a second
removal yields the same state. -/
theorem C7_remove_label_idempotent_witness :
    (removeLabelRoute dbLabel 1 1 9).1 = 200 ∧
    findTicket (removeLabelRoute dbLabel 1 1 9).2 1
      = some { mkTicket 1 1 with labels := [5] } ∧
    (removeLabelRoute (removeLabelRoute dbLabel 1 1 9).2 1 1 9).2
      = (removeLabelRoute dbLabel 1 1 9).2 :=
  C7_remove_label_idempotent dbLabel 1 1 9 { mkTicket 1 1 with labels := [5] }
    rfl rfl (by decide)

/-- C8: for a (user, project) pair that already has a ProjectRole row (the
user existing, as referential integrity guarantees for a stored membership),
POST /projects/:id/members answers 400 conflict and creates no second row;
moreover the endpoint preserves the at-most-one-ProjectRole-per-pair bound
for every pair. -/
theorem C8_duplicate_member_conflict (db : DB) (actorId projectId targetId : Nat)
    (role : Role) (u p : Nat) :
    ((findUser db targetId).isSome = true →
      (findProjectRole db targetId projectId).isSome = true →
      addMemberRoute db actorId projectId targetId role = (400, db)) ∧
    (countRoles db u p ≤ 1 →
      countRoles (addMemberRoute db actorId projectId targetId role).2 u p ≤ 1) := by
  constructor
  · intro hu hr
    obtain ⟨usr, hu⟩ := Option.isSome_iff_exists.mp hu
    obtain ⟨r, hr⟩ := Option.isSome_iff_exists.mp hr
    simp [addMemberRoute, requireProjectAccess, hu, hr]
  · intro hc
    cases hu : findUser db targetId with
    | none => simpa [addMemberRoute, requireProjectAccess, hu] using hc
    | some usr =>
      cases hr : findProjectRole db targetId projectId with
      | some r => simpa [addMemberRoute, requireProjectAccess, hu, hr] using hc
      | none =>
        have hstate : (addMemberRoute db actorId projectId targetId role).2
            = { db with projectRoles := db.projectRoles ++
                [{ userId := targetId, projectId := projectId, role := role }] } := by
          simp [addMemberRoute, requireProjectAccess, hu, hr]
        rw [hstate]
        unfold countRoles at hc ⊢
        simp only [List.filter_append, List.length_append]
        by_cases hup : targetId = u ∧ projectId = p
        · obtain ⟨h1, h2⟩ := hup
          have hempty : db.projectRoles.filter
              (fun r => r.userId == u && r.projectId == p) = [] := by
            rw [List.filter_eq_nil_iff]
            intro a ha hqa
            have hnone : ∀ x ∈ db.projectRoles,
                ¬(x.userId == targetId && x.projectId == projectId) = true :=
              List.find?_eq_none.mp hr
            exact hnone a ha (by rw [h1, h2]; exact hqa)
          rw [hempty]
          simp [h1, h2]
        · have hsingle : List.filter (fun r : ProjectRole => r.userId == u && r.projectId == p)
              ([{ userId := targetId, projectId := projectId, role := role }] : List ProjectRole)
              = [] := by
            simp only [List.filter_eq_nil_iff, List.mem_singleton]
            intro a ha
            rw [ha]
            simp only [Bool.and_eq_true, beq_iff_eq, not_and]
            intro h1 h2
            exact hup ⟨h1, h2⟩
          rw [hsingle]
          simpa using hc

/-- Witness for C8 on dbMembers: user 2 exists and already holds MEMBER on
project 1; adding user 2 again answers 400 without change, and the
uniqueness bound for the pair (2, 1) is preserved. -/
theorem C8_duplicate_member_conflict_witness :
    addMemberRoute dbMembers 1 1 2 Role.VIEWER = (400, dbMembers) ∧
    countRoles (addMemberRoute dbMembers 1 1 2 Role.VIEWER).2 2 1 ≤ 1 :=
  ⟨(C8_duplicate_member_conflict dbMembers 1 1 2 Role.VIEWER 2 1).1
      (by decide) (by decide),
   (C8_duplicate_member_conflict dbMembers 1 1 2 Role.VIEWER 2 1).2 (by decide)⟩

/-- C6 counterexample: the claim bounds the accepted limit to [1,100], but
the declared validator is never enforced (its validationResult check is
commented out): a GET /tickets request with limit 200 on dbFifteen is served
with 200, echoes limit 200, and returns all fifteen tickets. -/
theorem C6_limit_bound_unenforced :
    qLimit200.limit = 200 ∧
    (listTicketsRoute dbFifteen 1 qLimit200).status = 200 ∧
    (listTicketsRoute dbFifteen 1 qLimit200).limit = 200 ∧
    (listTicketsRoute dbFifteen 1 qLimit200).tickets.length = 15 := by
  refine ⟨rfl, ?_, ?_, ?_⟩ <;> decide

/-- C6 (amended): the result window of GET /tickets starts at offset
(page-1)×limit with whatever limit the request supplies (the declared [1,100]
bound is not enforced); in particular, for any database in which exactly 15
tickets match the query, page=2 and limit=10 yield status 200, exactly 5
tickets, and pages = ceil(15/10) = 2. -/
theorem C6_pagination_window (db : DB) (userId : Nat) (q : TicketQuery)
    (pid : Nat) (hq : q.projectId = some pid)
    (ha : (findProjectRole db userId pid).isSome = true)
    (hpage : q.page = 2) (hlimit : q.limit = 10)
    (htotal : (matchingTickets db userId q).length = 15) :
    (listTicketsRoute db userId q).status = 200 ∧
    (listTicketsRoute db userId q).tickets.length = 5 ∧
    (listTicketsRoute db userId q).pages = 2 := by
  obtain ⟨pr, hpr⟩ := Option.isSome_iff_exists.mp ha
  have hroute : listTicketsRoute db userId q = listTicketsOk db userId q := by
    simp [listTicketsRoute, hq, hpr]
  have hsort : (sortByUpdatedAtDesc (matchingTickets db userId q)).length = 15 := by
    rw [length_sortByUpdatedAtDesc]
    exact htotal
  rw [hroute]
  unfold listTicketsOk
  refine ⟨rfl, ?_, ?_⟩
  · show (((sortByUpdatedAtDesc (matchingTickets db userId q)).drop
        ((q.page - 1) * q.limit)).take q.limit).length = 5
    rw [List.length_take, List.length_drop, hsort, hpage, hlimit]
    decide
  · show ((sortByUpdatedAtDesc (matchingTickets db userId q)).length + q.limit - 1)
        / q.limit = 2
    rw [hsort, hlimit]

/-- Witness for C6 on dbFifteen: user 1 holds OWNER on project 1, exactly 15
tickets match the page-2/limit-10 query, and the route returns 5 tickets with
pages 2. -/
theorem C6_pagination_window_witness :
    (listTicketsRoute dbFifteen 1 qPage2).status = 200 ∧
    (listTicketsRoute dbFifteen 1 qPage2).tickets.length = 5 ∧
    (listTicketsRoute dbFifteen 1 qPage2).pages = 2 :=
  C6_pagination_window dbFifteen 1 qPage2 1 rfl (by decide) rfl rfl (by decide)

end BugTracker
